import Mathlib

/-! Verification development for the deposit-rates scraper repository.

The Python sources are shallowly embedded:
* `src/scraper/utils.py` — `clean_rate`, `parse_term_to_months` (regex search
  is embedded as an explicit scan for the first maximal run of matching
  characters; Python `float(...)` on a digits-and-dots token is embedded as a
  partial function into `ℚ`, `none` standing for a raised `ValueError`).
* `src/scraper/scrapers/alliance.py`, `src/scraper/scrapers/cargills.py` —
  the per-row record extraction logic (`Except String` models a propagated
  Python exception).
* `src/scraper/run_all.py` — the orchestrator loop: per-job try/except,
  delete-then-insert publish against the `public-rates` table, and the final
  batch upsert payload of `scraper_logs` entries.
-/

instance {ε α : Type} [DecidableEq ε] [DecidableEq α] : DecidableEq (Except ε α) := fun x y =>
  match x, y with
  | .ok a, .ok b =>
      if h : a = b then .isTrue (by rw [h]) else .isFalse (by intro hc; cases hc; exact h rfl)
  | .ok _, .error _ => .isFalse (by intro hc; cases hc)
  | .error _, .ok _ => .isFalse (by intro hc; cases hc)
  | .error e, .error f =>
      if h : e = f then .isTrue (by rw [h]) else .isFalse (by intro hc; cases hc; exact h rfl)

/-- Python `str.strip()`: drop whitespace from both ends (on the character
list of the string). -/
def stripChars (cs : List Char) : List Char :=
  ((cs.dropWhile Char.isWhitespace).reverse.dropWhile Char.isWhitespace).reverse

/-- A character matched by the regex class `[\d.]` in `re.search(r'([\d.]+)', …)`
(`src/scraper/utils.py:9`). -/
def isRateChar (c : Char) : Bool := c.isDigit || c == '.'

/-- Embedding of `re.search` for a character-class-plus pattern: the first maximal run of
characters satisfying `p`, or `none` when no character matches. -/
def firstRun (p : Char → Bool) : List Char → Option (List Char)
  | [] => none
  | c :: rest => if p c then some (c :: rest.takeWhile p) else firstRun p rest

/-- Numeric value of a list of decimal digit characters (Python `int` on a
`\d+` match). -/
def digitsVal (ds : List Char) : Nat :=
  ds.foldl (fun a c => 10 * a + (c.toNat - 48)) 0

/-- An exact decimal number `num / 10 ^ scale`, the value Python's `float`
produces from a digits-and-dots token (all such tokens denote non-negative
decimals, represented here exactly). -/
structure Dec where
  num : Nat
  scale : Nat
deriving DecidableEq, Repr

/-- The rational value of a parsed decimal. -/
def Dec.toRat (d : Dec) : ℚ := (d.num : ℚ) / (10 : ℚ) ^ d.scale

/-- Python `float(tok)` for a token drawn from `[\d.]+`: defined exactly when
the token has at most one dot and at least one digit (otherwise `float`
raises `ValueError`, embedded as `none`). -/
def pyFloatOfToken (cs : List Char) : Option Dec :=
  if cs.count '.' ≤ 1 ∧ cs.any Char.isDigit then
    let intPart := cs.takeWhile (fun c => !(c == '.'))
    let fracPart := (cs.dropWhile (fun c => !(c == '.'))).drop 1
    some ⟨digitsVal intPart * 10 ^ fracPart.length + digitsVal fracPart, fracPart.length⟩
  else none

/-- Embedding of `src/scraper/utils.py:4-11` (`clean_rate`): strip the text; the literal
placeholder list in the source is `['-', 'â€“']` (a mojibake-encoded dash);
otherwise search for the first `[\d.]+` token and apply `float`.
`Except.error` models the `ValueError` that `float` raises on a malformed
token; `Except.ok none` models `return None`. -/
def clean_rate (rate_text : String) : Except String (Option Dec) :=
  if stripChars rate_text.data == "-".data || stripChars rate_text.data == "â€“".data then
    .ok none
  else
    match firstRun isRateChar rate_text.data with
    | none => .ok none
    | some tok =>
      match pyFloatOfToken tok with
      | some q => .ok (some q)
      | none => .error "ValueError"

/-- The first `[\d.]+` token of the text is either absent or a well-formed
Python float literal (at most one dot, at least one digit). -/
def wellFormedFirstTok (s : String) : Bool :=
  match firstRun isRateChar s.data with
  | none => true
  | some tok => decide (tok.count '.' ≤ 1) && tok.any Char.isDigit

/-- Boolean prefix test on character lists. -/
def isPrefixList : List Char → List Char → Bool
  | [], _ => true
  | _ :: _, [] => false
  | p :: ps, c :: cs => p == c && isPrefixList ps cs

/-- Python's substring test `pat in s`. -/
def containsSub (pat : List Char) : List Char → Bool
  | [] => pat.isEmpty
  | c :: cs => isPrefixList pat (c :: cs) || containsSub pat cs

/-- Python `str.lower()` for ASCII letters (the unit words the source keys on
are ASCII). -/
def lowerChar (c : Char) : Char :=
  if c.isUpper then Char.ofNat (c.toNat + 32) else c

/-- Embedding of `src/scraper/utils.py:13-29` (`parse_term_to_months`): lowercase the text;
if it contains `"year"`, the first `\d+` run times 12; else if it contains
`"month"`, the first `\d+` run; else `None`.  Total (Python `int` on a `\d+`
match never raises). -/
def parse_term_to_months (term_text : String) : Option Nat :=
  let t := term_text.data.map lowerChar
  if containsSub "year".data t then
    match firstRun Char.isDigit t with
    | some ds => some (digitsVal ds * 12)
    | none => none
  else if containsSub "month".data t then
    match firstRun Char.isDigit t with
    | some ds => some (digitsVal ds)
    | none => none
  else none

/-- One row of the `public-rates` table (§6 store interface: columns
`bankName, fdType, institutionType, termMonths, payoutSchedule,
interestRate, aer`). -/
structure Row where
  bankName : String
  fdType : String
  institutionType : String
  termMonths : Nat
  payoutSchedule : String
  interestRate : Dec
  aer : Option Dec
deriving DecidableEq, Repr

/-- Python truthiness of an optional float: `if rate := clean_rate(...):`
takes the branch exactly when the value is neither `None` nor `0.0`
(`num = 0` is the only way a digits-and-dots decimal denotes `0.0`). -/
def truthyRate (o : Option Dec) : Bool :=
  match o with
  | none => false
  | some d => d.num != 0

/-- Python truthiness of `parse_term_to_months`'s result: `if not term_months:
continue` skips the row when the parse is `None` or `0`. -/
def truthyTerm (o : Option Nat) : Bool :=
  match o with
  | none => false
  | some n => n != 0

/-- Embedding of `src/scraper/scrapers/alliance.py:34-45`: records contributed by one
5-cell table row `(term, monthlyRate, monthlyAER, maturityRate, maturityAER)`.
Rows with the wrong cell count or an unparsable/zero term are skipped; each
truthy payout-schedule rate contributes one record; a `ValueError` from
`clean_rate` propagates (`Except.error`). -/
def allianceRowRecords (name institution_type : String) (cells : List String) :
    Except String (List Row) := do
  if cells.length != 5 then return []
  let term_months := parse_term_to_months (cells.getD 0 "")
  if !truthyTerm term_months then return []
  let tm := term_months.getD 0
  let monthly_rate ← clean_rate (cells.getD 1 "")
  let recsMonthly ←
    if truthyRate monthly_rate then do
      let aer ← clean_rate (cells.getD 2 "")
      pure [Row.mk name "Standard" institution_type tm "Monthly" (monthly_rate.getD ⟨0, 0⟩) aer]
    else pure []
  let maturity_rate ← clean_rate (cells.getD 3 "")
  let recsMaturity ←
    if truthyRate maturity_rate then do
      let aer ← clean_rate (cells.getD 4 "")
      pure [Row.mk name "Standard" institution_type tm "At Maturity" (maturity_rate.getD ⟨0, 0⟩) aer]
    else pure []
  return recsMonthly ++ recsMaturity

/-- Embedding of `src/scraper/scrapers/alliance.py:34-45`: the whole-table loop, appending
each row's records in order; a raised exception aborts the scrape. -/
def allianceExtract (name institution_type : String) (rows : List (List String)) :
    Except String (List Row) := do
  let rss ← rows.mapM (allianceRowRecords name institution_type)
  return rss.flatten

/-- Embedding of `src/scraper/scrapers/cargills.py:39-50`: records contributed by one
6-cell standard-table row `(term, maturityRate, maturityAER, monthlyRate,
monthlyAER, annualRate)`. -/
def cargillsStandardRowRecords (name institution_type : String) (cells : List String) :
    Except String (List Row) := do
  if cells.length != 6 then return []
  let term_months := parse_term_to_months (cells.getD 0 "")
  if !truthyTerm term_months then return []
  let tm := term_months.getD 0
  let maturity ← clean_rate (cells.getD 1 "")
  let recsMaturity ←
    if truthyRate maturity then do
      let aer ← clean_rate (cells.getD 2 "")
      pure [Row.mk name "Standard" institution_type tm "At Maturity" (maturity.getD ⟨0, 0⟩) aer]
    else pure []
  let monthly ← clean_rate (cells.getD 3 "")
  let recsMonthly ←
    if truthyRate monthly then do
      let aer ← clean_rate (cells.getD 4 "")
      pure [Row.mk name "Standard" institution_type tm "Monthly" (monthly.getD ⟨0, 0⟩) aer]
    else pure []
  let annually ← clean_rate (cells.getD 5 "")
  let recsAnnually ←
    if truthyRate annually then
      pure [Row.mk name "Standard" institution_type tm "Annually" (annually.getD ⟨0, 0⟩) none]
    else pure []
  return recsMaturity ++ recsMonthly ++ recsAnnually

/-- Embedding of `src/scraper/scrapers/cargills.py:55-64`: records contributed by one
3-cell senior-citizen-table row `(term, maturityRate, monthlyRate)`. -/
def cargillsSeniorRowRecords (name institution_type : String) (cells : List String) :
    Except String (List Row) := do
  if cells.length != 3 then return []
  let term_months := parse_term_to_months (cells.getD 0 "")
  if !truthyTerm term_months then return []
  let tm := term_months.getD 0
  let maturity ← clean_rate (cells.getD 1 "")
  let recsMaturity ←
    if truthyRate maturity then
      pure [Row.mk name "Senior Citizen" institution_type tm "At Maturity" (maturity.getD ⟨0, 0⟩) none]
    else pure []
  let monthly ← clean_rate (cells.getD 2 "")
  let recsMonthly ←
    if truthyRate monthly then
      pure [Row.mk name "Senior Citizen" institution_type tm "Monthly" (monthly.getD ⟨0, 0⟩) none]
    else pure []
  return recsMaturity ++ recsMonthly

/-- One run-log entry as built by `BaseScraper.get_log_data`
(`src/scraper/base.py:29-39`) and mutated by the orchestrator loop. -/
structure LogEntry where
  name : String
  institutionType : String
  status : String
  recordsUpdated : Nat
  errorMessage : String
deriving DecidableEq, Repr

/-- What one scraper's `scrape()` does on this run: raise an exception with a
message, or return a DataFrame embedded as its list of (already cleaned and
renamed) rows.  The empty list is the empty DataFrame. -/
inductive ScrapeResult where
  | raises (msg : String)
  | frame (rows : List Row)
deriving DecidableEq, Repr

/-- Behaviour of the store during one job's publish step: both operations
succeed, or the scoped delete raises, or the subsequent insert raises (each
caught by the loop's `except` in `src/scraper/run_all.py:84-88`). -/
inductive PublishFault where
  | ok
  | deleteRaises (msg : String)
  | insertRaises (msg : String)
deriving DecidableEq, Repr

/-- One institution job as the orchestrator sees it: identity metadata from
`BaseScraper`, this run's scrape outcome, and the store's behaviour for this
job's publish step. -/
structure JobSpec where
  name : String
  institutionType : String
  scrape : ScrapeResult
  fault : PublishFault
deriving DecidableEq, Repr

/-- The `public-rates` table: a list of rows. -/
abbrev Store := List Row

/-- The rows this job's scrape produced (empty when it raised). -/
def scrapedRows (j : JobSpec) : List Row :=
  match j.scrape with
  | .raises _ => []
  | .frame rows => rows

/-- Embedding of `src/scraper/base.py:29-39` (`get_log_data`): the initial `Pending` log
entry each job owns before the run. -/
def get_log_data (j : JobSpec) : LogEntry :=
  ⟨j.name, j.institutionType, "Pending", 0, "N/A"⟩

/-- Embedding of the scoped delete
`supabase.from_("public-rates").delete().eq("bankName", name).execute()`:
remove every row scoped to the institution. -/
def deleteScope (store : Store) (name : String) : Store :=
  store.filter (fun r => !(r.bankName == name))

/-- The delete-then-insert publish sequence
(`src/scraper/run_all.py:70-78`, `src/scraper/fd_scraper_v2.py:29-47`):
delete every row scoped to the institution, then insert this run's rows. -/
def update_supabase_for_institution (store : Store) (name : String) (records : List Row) :
    Store :=
  deleteScope store name ++ records

/-- Effect of the loop body for one job on the `public-rates` table
(`src/scraper/run_all.py:53-88`): a raised scrape leaves the store alone; an
empty frame `continue`s before any store call; otherwise delete-then-insert
runs, stopping where the store faults (an insert fault leaves the scope
deleted but nothing re-inserted). -/
def jobStore (store : Store) (j : JobSpec) : Store :=
  match j.scrape with
  | .raises _ => store
  | .frame rows =>
    if rows.isEmpty then store
    else
      match j.fault with
      | .ok => update_supabase_for_institution store j.name rows
      | .deleteRaises _ => store
      | .insertRaises _ => deleteScope store j.name

/-- Effect of the loop body for one job on its own log entry
(`src/scraper/run_all.py:53-88`): `Failed` with the exception text on a raise,
`Failed`/`No data extracted` on an empty frame, `Failed` with the store
exception text on a publish fault, else `Success` with the record count. -/
def jobLog (j : JobSpec) : LogEntry :=
  match j.scrape with
  | .raises e => { get_log_data j with status := "Failed", errorMessage := e }
  | .frame rows =>
    if rows.isEmpty then
      { get_log_data j with status := "Failed", errorMessage := "No data extracted" }
    else
      match j.fault with
      | .ok => { get_log_data j with status := "Success", recordsUpdated := rows.length }
      | .deleteRaises e => { get_log_data j with status := "Failed", errorMessage := e }
      | .insertRaises e => { get_log_data j with status := "Failed", errorMessage := e }

/-- One iteration of the orchestrator loop: the store effect and the job's
final log entry (the loop body touches only `all_logs[i]` and the store). -/
def runJob (store : Store) (j : JobSpec) : Store × LogEntry :=
  (jobStore store j, jobLog j)

/-- Embedding of `src/scraper/run_all.py:53-96` (`run_scraper_orchestrator`): run each job
in turn inside its own try/except, threading the store; the returned list is
`all_logs`, the payload of the single batch `scraper_logs` upsert at the end
of the run. -/
def run_scraper_orchestrator (store : Store) : List JobSpec → Store × List LogEntry
  | [] => (store, [])
  | j :: rest =>
    let out := runJob store j
    let outRest := run_scraper_orchestrator out.1 rest
    (outRest.1, out.2 :: outRest.2)

/-- Embedding of the batch log upsert
`supabase.from_("scraper_logs").upsert(all_logs, on_conflict="name")`:
per payload entry, replace the row with the same `name` or append. -/
def upsertLogs (logTable : List LogEntry) (payload : List LogEntry) : List LogEntry :=
  payload.foldl
    (fun acc e =>
      if acc.any (fun x => x.name == e.name) then
        acc.map (fun x => if x.name == e.name then e else x)
      else acc ++ [e])
    logTable

/-- The job's scrape succeeded with at least one record and the store accepted
both publish operations. -/
def jobSucceeds (j : JobSpec) : Prop :=
  (∃ rows, j.scrape = .frame rows ∧ rows ≠ []) ∧ j.fault = .ok

/-- The job's scrape failed: it raised an exception, or returned no data. -/
def scrapeFails (j : JobSpec) : Prop :=
  (∃ e, j.scrape = .raises e) ∨ j.scrape = .frame []

/-- Every row the job scraped carries the job's own institution name — what
the extractors guarantee by constructing each record with
`'Bank Name': self.name`. -/
def wellScoped (j : JobSpec) : Prop :=
  ∀ r ∈ scrapedRows j, r.bankName = j.name

instance : DecidablePred wellScoped := fun j => by
  unfold wellScoped; infer_instance

/-! ## Claim theorems -/

theorem dec_toRat_pos {d : Dec} (h : d.num ≠ 0) : 0 < d.toRat := by
  unfold Dec.toRat
  apply div_pos
  · exact_mod_cast Nat.pos_of_ne_zero h
  · positivity

/-- C4 counterexample: the claim says `clean_rate "0%"` is absent (`None`);
the code returns the float `0.0` (non-positive values are not rejected by
`clean_rate`). -/
theorem clean_rate_zero_not_rejected :
    clean_rate "0%" = .ok (some ⟨0, 0⟩) ∧ (Dec.toRat ⟨0, 0⟩) = 0 ∧
      clean_rate "0%" ≠ .ok none := by
  refine ⟨by decide, by norm_num [Dec.toRat], by decide⟩

/-- C4 (amended): `clean_rate` returns `14.5` for `"14.5% p.a."` and absent
for `"-"`, `"–"` and `""`; but for `"0%"` it returns `0.0` rather than
absent — non-positive rates are rejected only at the extractor call sites,
whose truthiness guard drops a zero rate (shown here on an Alliance row). -/
theorem clean_rate_examples_and_zero_behaviour :
    clean_rate "14.5% p.a." = .ok (some ⟨145, 1⟩) ∧ (Dec.toRat ⟨145, 1⟩) = 14.5 ∧
      clean_rate "-" = .ok none ∧
      clean_rate "–" = .ok none ∧
      clean_rate "" = .ok none ∧
      clean_rate "0%" = .ok (some ⟨0, 0⟩) ∧
      allianceRowRecords "Alliance Finance" "Finance Company"
          ["12 Months", "0%", "-", "-", "-"] = .ok [] := by
  refine ⟨by decide, by norm_num [Dec.toRat], by decide, by decide, by decide, by decide,
    by decide⟩

/-- C5: `parse_term_to_months` maps `"1 Year"` to `12` and `"6 Months"` to
`6`; whenever the lowercased text contains `"year"` the detected integer is
multiplied by 12; for `"month"`-only texts the integer is returned
unchanged; and the result is absent when no number or no unit word is
found. -/
theorem parse_term_to_months_spec :
    parse_term_to_months "1 Year" = some 12 ∧
      parse_term_to_months "6 Months" = some 6 ∧
      (∀ s : String, ∀ ds,
        containsSub "year".data (s.data.map lowerChar) = true →
        firstRun Char.isDigit (s.data.map lowerChar) = some ds →
        parse_term_to_months s = some (digitsVal ds * 12)) ∧
      (∀ s : String, ∀ ds,
        containsSub "year".data (s.data.map lowerChar) = false →
        containsSub "month".data (s.data.map lowerChar) = true →
        firstRun Char.isDigit (s.data.map lowerChar) = some ds →
        parse_term_to_months s = some (digitsVal ds)) ∧
      (∀ s : String,
        firstRun Char.isDigit (s.data.map lowerChar) = none →
        parse_term_to_months s = none) ∧
      (∀ s : String,
        containsSub "year".data (s.data.map lowerChar) = false →
        containsSub "month".data (s.data.map lowerChar) = false →
        parse_term_to_months s = none) := by
  refine ⟨by decide, by decide, ?_, ?_, ?_, ?_⟩
  · intro s ds hy hd
    simp [parse_term_to_months, hy, hd]
  · intro s ds hy hm hd
    simp [parse_term_to_months, hy, hm, hd]
  · intro s hd
    by_cases hy : containsSub "year".data (s.data.map lowerChar) = true
    · simp [parse_term_to_months, hy, hd]
    · by_cases hm : containsSub "month".data (s.data.map lowerChar) = true
      · simp [parse_term_to_months, hy, hm, hd]
      · simp [parse_term_to_months, hy, hm]
  · intro s hy hm
    simp [parse_term_to_months, hy, hm]

/-- C5 witness: the year clause of `parse_term_to_months_spec` at a concrete
input. -/
theorem parse_term_to_months_spec_witness :
    parse_term_to_months "2 years" = some 24 :=
  parse_term_to_months_spec.2.2.1 "2 years" ['2'] (by decide) (by decide)

/-- C10 counterexample: the claim says `clean_rate` never raises; on
`"1.2.3"` (first token not a well-formed decimal) the code's
`float(match.group(1))` raises `ValueError`. -/
theorem clean_rate_raises_on_malformed_token :
    clean_rate "1.2.3" = .error "ValueError" ∧
      clean_rate "." = .error "ValueError" := by
  exact ⟨by decide, by decide⟩

/-- C10 (amended): `clean_rate` returns normally (a float or absent) for
every input whose first digits-and-dots token is absent or is a well-formed
decimal literal; it raises `ValueError` exactly on malformed first tokens
such as `"1.2.3"` or `"."`. -/
theorem clean_rate_total_on_wellformed (s : String)
    (h : wellFormedFirstTok s = true) :
    ∃ v, clean_rate s = .ok v := by
  unfold clean_rate
  split
  · exact ⟨none, rfl⟩
  · unfold wellFormedFirstTok at h
    cases hfr : firstRun isRateChar s.data with
    | none => exact ⟨none, rfl⟩
    | some tok =>
      rw [hfr] at h
      have hcond : tok.count '.' ≤ 1 ∧ tok.any Char.isDigit = true := by
        simpa using h
      cases hq : pyFloatOfToken tok with
      | none =>
        unfold pyFloatOfToken at hq
        rw [if_pos hcond] at hq
        cases hq
      | some q => exact ⟨some q, by simp [hq]⟩

/-- C10 witness: `clean_rate_total_on_wellformed` at a concrete input. -/
theorem clean_rate_total_on_wellformed_witness :
    ∃ v, clean_rate "7% p.a." = .ok v :=
  clean_rate_total_on_wellformed "7% p.a." (by decide)

theorem truthyTerm_pos {o : Option Nat} (h : truthyTerm o = true) : 0 < o.getD 0 := by
  cases o with
  | none => simp [truthyTerm] at h
  | some n =>
    simp [truthyTerm] at h
    simpa using Nat.pos_of_ne_zero h

theorem truthyTerm_pos' {o : Option Nat} (h : ¬(!truthyTerm o) = true) : 0 < o.getD 0 :=
  truthyTerm_pos (by revert h; cases truthyTerm o <;> simp)

theorem truthyRate_num {o : Option Dec} (h : truthyRate o = true) :
    (o.getD ⟨0, 0⟩).num ≠ 0 := by
  cases o with
  | none => simp [truthyRate] at h
  | some d => simpa [truthyRate] using h

/-- C9: every record an extractor row emits has a positive `termMonths` (rows
whose term fails to parse, or parses as zero, are skipped) and a strictly
positive nominal rate (the truthiness guard on `clean_rate`'s result drops
`None` and `0.0`). -/
theorem extracted_records_positive (name institution_type : String)
    (cells : List String) (l : List Row)
    (h : allianceRowRecords name institution_type cells = .ok l ∨
         cargillsStandardRowRecords name institution_type cells = .ok l ∨
         cargillsSeniorRowRecords name institution_type cells = .ok l) :
    ∀ r ∈ l, 0 < r.termMonths ∧ 0 < r.interestRate.toRat := by
  rcases h with h | h | h <;>
    (simp only [allianceRowRecords, cargillsStandardRowRecords, cargillsSeniorRowRecords,
      Bind.bind, Except.bind, Pure.pure, Except.pure] at h
     repeat' split at h
     all_goals (try exact Except.noConfusion h)
     all_goals cases h
     all_goals intro r hr
     all_goals simp only [List.mem_append, List.mem_singleton, List.mem_nil_iff,
       List.not_mem_nil, or_false, false_or] at hr
     all_goals (try exact hr.elim)
     all_goals (repeat' rcases hr with hr | hr)
     all_goals (try subst hr)
     all_goals
       exact ⟨truthyTerm_pos' (by assumption), dec_toRat_pos (truthyRate_num (by assumption))⟩)

/-- C9 witness: `extracted_records_positive` at a concrete Alliance row and
the one record it emits. -/
theorem extracted_records_positive_witness :
    0 < (Row.mk "Alliance Finance" "Standard" "Finance Company" 12 "Monthly" ⟨135, 1⟩
        (some ⟨139, 1⟩)).termMonths ∧
      0 < (Row.mk "Alliance Finance" "Standard" "Finance Company" 12 "Monthly" ⟨135, 1⟩
        (some ⟨139, 1⟩)).interestRate.toRat :=
  extracted_records_positive "Alliance Finance" "Finance Company"
    ["12 Months", "13.5%", "13.9%", "-", "-"]
    [Row.mk "Alliance Finance" "Standard" "Finance Company" 12 "Monthly" ⟨135, 1⟩
      (some ⟨139, 1⟩)]
    (Or.inl (by decide))
    (Row.mk "Alliance Finance" "Standard" "Finance Company" 12 "Monthly" ⟨135, 1⟩
      (some ⟨139, 1⟩))
    (by decide)

/-- C8: under the five-column Term/Monthly/AER/AtMaturity/AER layout, the two
synthetic rows `("12 Months","13.5%","13.9%","-","-")` and
`("6 Months","-","-","12.0%","-")` extract to exactly one record each —
(12 months, Monthly, 13.5, aer 13.9) and (6 months, At Maturity, 12.0, aer
absent) — and in general a row contributes one record per truthy
payout-schedule rate, at most 2 for the Alliance layout and at most 3 for the
Cargills standard layout. -/
theorem alliance_synthetic_two_rows :
    allianceExtract "Alliance Finance" "Finance Company"
        [["12 Months", "13.5%", "13.9%", "-", "-"], ["6 Months", "-", "-", "12.0%", "-"]] =
      .ok [Row.mk "Alliance Finance" "Standard" "Finance Company" 12 "Monthly" ⟨135, 1⟩
            (some ⟨139, 1⟩),
          Row.mk "Alliance Finance" "Standard" "Finance Company" 6 "At Maturity" ⟨120, 1⟩
            none] ∧
      (Dec.toRat ⟨135, 1⟩ = 13.5 ∧ Dec.toRat ⟨139, 1⟩ = 13.9 ∧ Dec.toRat ⟨120, 1⟩ = 12) ∧
      (∀ name institution_type : String, ∀ cells l,
        allianceRowRecords name institution_type cells = .ok l → l.length ≤ 2) ∧
      (∀ name institution_type : String, ∀ cells l,
        cargillsStandardRowRecords name institution_type cells = .ok l → l.length ≤ 3) := by
  refine ⟨by decide,
    ⟨by norm_num [Dec.toRat], by norm_num [Dec.toRat], by norm_num [Dec.toRat]⟩, ?_, ?_⟩
  · intro name institution_type cells l h
    simp only [allianceRowRecords, Bind.bind, Except.bind, Pure.pure, Except.pure] at h
    repeat' split at h
    all_goals (try exact Except.noConfusion h)
    all_goals cases h
    all_goals simp
  · intro name institution_type cells l h
    simp only [cargillsStandardRowRecords, Bind.bind, Except.bind, Pure.pure, Except.pure] at h
    repeat' split at h
    all_goals (try exact Except.noConfusion h)
    all_goals cases h
    all_goals simp

/-- C8 witness: the Cargills standard-row bound of `alliance_synthetic_two_rows`
at a concrete fully-populated row (which yields 3 records). -/
theorem alliance_synthetic_two_rows_witness :
    ([Row.mk "X" "Standard" "B" 12 "At Maturity" ⟨14, 0⟩ (some ⟨145, 1⟩),
      Row.mk "X" "Standard" "B" 12 "Monthly" ⟨135, 1⟩ (some ⟨139, 1⟩),
      Row.mk "X" "Standard" "B" 12 "Annually" ⟨13, 0⟩ none] : List Row).length ≤ 3 :=
  alliance_synthetic_two_rows.2.2.2 "X" "B"
    ["12 Months", "14%", "14.5%", "13.5%", "13.9%", "13%"] _ (by decide)

theorem deleteScope_scope_nil (store : Store) (x : String) :
    (deleteScope store x).filter (fun r => r.bankName == x) = [] := by
  simp [deleteScope, List.filter_filter]

theorem deleteScope_idem (store : Store) (x : String) :
    deleteScope (deleteScope store x) x = deleteScope store x := by
  simp [deleteScope, List.filter_filter]

theorem deleteScope_append (a b : Store) (x : String) :
    deleteScope (a ++ b) x = deleteScope a x ++ deleteScope b x := by
  simp [deleteScope]

/-- C2: two successive replaces for the same institution leave the store
containing exactly the second record set in that institution's scope (no
residual rows from the first call), and rows of other institutions are
untouched. -/
theorem replace_twice_leaves_second_set (store : Store) (x : String) (r1 r2 : List Row)
    (h1 : ∀ r ∈ r1, r.bankName = x) (h2 : ∀ r ∈ r2, r.bankName = x) :
    (update_supabase_for_institution (update_supabase_for_institution store x r1) x r2).filter
        (fun r => r.bankName == x) = r2 ∧
      (update_supabase_for_institution (update_supabase_for_institution store x r1) x r2).filter
        (fun r => !(r.bankName == x)) = store.filter (fun r => !(r.bankName == x)) := by
  have e1 : deleteScope r1 x = [] :=
    List.filter_eq_nil_iff.mpr (fun a ha => by simp [h1 a ha])
  have e2 : r2.filter (fun r => !(r.bankName == x)) = [] :=
    List.filter_eq_nil_iff.mpr (fun a ha => by simp [h2 a ha])
  have key : update_supabase_for_institution (update_supabase_for_institution store x r1) x r2
      = deleteScope store x ++ r2 := by
    unfold update_supabase_for_institution
    rw [deleteScope_append, deleteScope_idem, e1, List.append_nil]
  rw [key]
  constructor
  · rw [List.filter_append, deleteScope_scope_nil, List.nil_append]
    exact List.filter_eq_self.mpr (fun a ha => by simp [h2 a ha])
  · rw [List.filter_append, e2, List.append_nil]
    exact deleteScope_idem store x

/-- C2 witness: `replace_twice_leaves_second_set` at a concrete store and two
concrete record sets for Alliance Finance. -/
theorem replace_twice_leaves_second_set_witness :
    (update_supabase_for_institution
        (update_supabase_for_institution
          [Row.mk "Other Bank" "Standard" "Bank" 12 "Monthly" ⟨10, 0⟩ none]
          "Alliance Finance"
          [Row.mk "Alliance Finance" "Standard" "Finance Company" 12 "Monthly" ⟨135, 1⟩ none])
        "Alliance Finance"
        [Row.mk "Alliance Finance" "Standard" "Finance Company" 6 "At Maturity" ⟨120, 1⟩ none]).filter
      (fun r => r.bankName == "Alliance Finance") =
      [Row.mk "Alliance Finance" "Standard" "Finance Company" 6 "At Maturity" ⟨120, 1⟩ none] :=
  (replace_twice_leaves_second_set
    [Row.mk "Other Bank" "Standard" "Bank" 12 "Monthly" ⟨10, 0⟩ none]
    "Alliance Finance"
    [Row.mk "Alliance Finance" "Standard" "Finance Company" 12 "Monthly" ⟨135, 1⟩ none]
    [Row.mk "Alliance Finance" "Standard" "Finance Company" 6 "At Maturity" ⟨120, 1⟩ none]
    (by decide) (by decide)).1

/-- C3: when the scoped delete succeeds but the insert raises, the run leaves
zero records in the institution's scope (nothing is rolled back), and the job
is reported as `Failed` with the store's error text. -/
theorem insert_failure_leaves_scope_empty (store : Store) (j : JobSpec) (rows : List Row)
    (e : String) (hrows : j.scrape = .frame rows) (hne : rows ≠ [])
    (hfault : j.fault = .insertRaises e) :
    ((runJob store j).1.filter (fun r => r.bankName == j.name)) = [] ∧
      (runJob store j).2.status = "Failed" ∧
      (runJob store j).2.errorMessage = e := by
  have hemp : rows.isEmpty = false := by
    cases rows with
    | nil => exact absurd rfl hne
    | cons a l => rfl
  unfold runJob jobStore jobLog get_log_data
  rw [hrows, hfault]
  refine ⟨?_, ?_, ?_⟩ <;> simp [hemp, deleteScope_scope_nil]

/-- C3 witness: `insert_failure_leaves_scope_empty` at a concrete job whose
insert raises, over a store already holding one record for that bank. -/
theorem insert_failure_leaves_scope_empty_witness :
    ((runJob [Row.mk "Cargills Bank" "Standard" "Bank" 12 "Monthly" ⟨14, 0⟩ none]
        (JobSpec.mk "Cargills Bank" "Bank"
          (.frame [Row.mk "Cargills Bank" "Standard" "Bank" 6 "Monthly" ⟨15, 0⟩ none])
          (.insertRaises "insert rejected"))).1.filter
      (fun r => r.bankName == "Cargills Bank")) = [] :=
  (insert_failure_leaves_scope_empty
    [Row.mk "Cargills Bank" "Standard" "Bank" 12 "Monthly" ⟨14, 0⟩ none]
    (JobSpec.mk "Cargills Bank" "Bank"
      (.frame [Row.mk "Cargills Bank" "Standard" "Bank" 6 "Monthly" ⟨15, 0⟩ none])
      (.insertRaises "insert rejected"))
    [Row.mk "Cargills Bank" "Standard" "Bank" 6 "Monthly" ⟨15, 0⟩ none]
    "insert rejected" rfl (by decide) rfl).1

/-- C6: a job whose scrape returns zero records ends `Failed` with error
message `"No data extracted"` and `recordsUpdated = 0`, and the store is
untouched (no delete and no insert happen for that institution). -/
theorem no_data_job_fails (store : Store) (j : JobSpec) (h : j.scrape = .frame []) :
    runJob store j =
      (store, LogEntry.mk j.name j.institutionType "Failed" 0 "No data extracted") := by
  unfold runJob jobStore jobLog get_log_data
  rw [h]
  rfl

/-- C6 witness: `no_data_job_fails` at a concrete job. -/
theorem no_data_job_fails_witness :
    runJob [] (JobSpec.mk "Cargills Bank" "Bank" (.frame []) .ok) =
      ([], LogEntry.mk "Cargills Bank" "Bank" "Failed" 0 "No data extracted") :=
  no_data_job_fails [] (JobSpec.mk "Cargills Bank" "Bank" (.frame []) .ok) rfl

/-- C7: a job whose fetch raises (its scrape throws, as `raise_for_status` or
a network error does) ends `Failed` with `recordsUpdated = 0` and the
exception text as a non-empty error message, and the Publisher is never
called: the store is unchanged. -/
theorem fetch_failure_job (store : Store) (j : JobSpec) (e : String)
    (h : j.scrape = .raises e) (he : e ≠ "") :
    (runJob store j).2.status = "Failed" ∧
      (runJob store j).2.recordsUpdated = 0 ∧
      (runJob store j).2.errorMessage = e ∧
      (runJob store j).2.errorMessage ≠ "" ∧
      (runJob store j).1 = store := by
  unfold runJob jobStore jobLog get_log_data
  rw [h]
  exact ⟨rfl, rfl, rfl, he, rfl⟩

/-- C7 witness: `fetch_failure_job` at a concrete job raising an HTTP error. -/
theorem fetch_failure_job_witness :
    ((runJob [] (JobSpec.mk "Alliance Finance" "Finance Company"
        (.raises "503 Server Error") .ok)).2.status = "Failed") ∧
      ((runJob [] (JobSpec.mk "Alliance Finance" "Finance Company"
        (.raises "503 Server Error") .ok)).1 = []) := by
  have h := fetch_failure_job [] (JobSpec.mk "Alliance Finance" "Finance Company"
    (.raises "503 Server Error") .ok) "503 Server Error" rfl (by decide)
  exact ⟨h.1, h.2.2.2.2⟩

theorem orchestrator_store_foldl (jobs : List JobSpec) (store : Store) :
    (run_scraper_orchestrator store jobs).1 = jobs.foldl jobStore store := by
  induction jobs generalizing store with
  | nil => rfl
  | cons j rest ih => simp [run_scraper_orchestrator, runJob, List.foldl_cons, ih]

theorem orchestrator_logs_map (jobs : List JobSpec) (store : Store) :
    (run_scraper_orchestrator store jobs).2 = jobs.map jobLog := by
  induction jobs generalizing store with
  | nil => rfl
  | cons j rest ih => simp [run_scraper_orchestrator, runJob, ih]

theorem jobLog_success {j : JobSpec} (h : jobSucceeds j) :
    (jobLog j).status = "Success" ∧
      (jobLog j).recordsUpdated = (scrapedRows j).length := by
  obtain ⟨⟨rows, hs, hne⟩, hf⟩ := h
  have hemp : rows.isEmpty = false := by
    cases rows with
    | nil => exact absurd rfl hne
    | cons a l => rfl
  constructor <;> simp [jobLog, get_log_data, scrapedRows, hs, hf, hemp]

theorem jobLog_failed {j : JobSpec} (h : scrapeFails j) :
    (jobLog j).status = "Failed" := by
  rcases h with ⟨e, hs⟩ | hs <;> simp [jobLog, get_log_data, hs]

theorem jobStore_other_scope (store : Store) (j : JobSpec) (x : String)
    (hx : j.name ≠ x) (hw : wellScoped j) :
    (jobStore store j).filter (fun r => r.bankName == x) =
      store.filter (fun r => r.bankName == x) := by
  have hds : (deleteScope store j.name).filter (fun r => r.bankName == x) =
      store.filter (fun r => r.bankName == x) := by
    unfold deleteScope
    rw [List.filter_filter]
    refine List.filter_congr (fun a _ => ?_)
    by_cases hax : a.bankName = x
    · have : x ≠ j.name := fun hc => hx hc.symm
      simp [hax, this]
    · simp [hax]
  cases hs : j.scrape with
  | raises e => simp [jobStore, hs]
  | frame rows =>
    have hrows : rows.filter (fun r => r.bankName == x) = [] := by
      refine List.filter_eq_nil_iff.mpr (fun a ha => ?_)
      have hba : a.bankName = j.name := hw a (by simp [scrapedRows, hs, ha])
      simp [hba, hx]
    by_cases hemp : rows.isEmpty
    · simp [jobStore, hs, hemp]
    · cases hf : j.fault with
      | ok =>
        simp [jobStore, hs, hemp, hf, update_supabase_for_institution,
          List.filter_append, hds, hrows]
      | deleteRaises e => simp [jobStore, hs, hemp, hf]
      | insertRaises e => simp [jobStore, hs, hemp, hf, hds]

theorem foldl_preserves_scope (jobs : List JobSpec) (store : Store) (x : String)
    (h : ∀ j ∈ jobs, j.name ≠ x ∧ wellScoped j) :
    (jobs.foldl jobStore store).filter (fun r => r.bankName == x) =
      store.filter (fun r => r.bankName == x) := by
  induction jobs generalizing store with
  | nil => rfl
  | cons j rest ih =>
    rw [List.foldl_cons, ih _ (fun i hi => h i (List.mem_cons_of_mem j hi))]
    exact jobStore_other_scope store j x (h j (List.mem_cons_self j rest)).1
      (h j (List.mem_cons_self j rest)).2

theorem jobStore_own_scope (store : Store) (j : JobSpec)
    (hsucc : jobSucceeds j) (hw : wellScoped j) :
    (jobStore store j).filter (fun r => r.bankName == j.name) = scrapedRows j := by
  obtain ⟨⟨rows, hs, hne⟩, hf⟩ := hsucc
  have hemp : rows.isEmpty = false := by
    cases rows with
    | nil => exact absurd rfl hne
    | cons a l => rfl
  have hself : rows.filter (fun r => r.bankName == j.name) = rows := by
    refine List.filter_eq_self.mpr (fun a ha => ?_)
    have hba : a.bankName = j.name := hw a (by simp [scrapedRows, hs, ha])
    simp [hba]
  simp [jobStore, hs, hemp, hf, update_supabase_for_institution, List.filter_append,
    deleteScope_scope_nil, hself, scrapedRows]

theorem foldl_own_scope (jobs : List JobSpec) (store : Store) (j : JobSpec)
    (hj : j ∈ jobs) (hsucc : jobSucceeds j)
    (hnd : (jobs.map JobSpec.name).Nodup)
    (hsc : ∀ i ∈ jobs, wellScoped i) :
    (jobs.foldl jobStore store).filter (fun r => r.bankName == j.name) =
      scrapedRows j := by
  induction jobs generalizing store with
  | nil => cases hj
  | cons i rest ih =>
    simp only [List.map_cons, List.nodup_cons] at hnd
    rw [List.foldl_cons]
    rcases List.mem_cons.mp hj with rfl | hjr
    · have hnot : ∀ m ∈ rest, m.name ≠ j.name := by
        intro m hm hc
        exact hnd.1 (hc ▸ List.mem_map_of_mem JobSpec.name hm)
      rw [foldl_preserves_scope rest _ j.name
          (fun m hm => ⟨hnot m hm, hsc m (List.mem_cons_of_mem _ hm)⟩)]
      exact jobStore_own_scope store j hsucc (hsc j (List.mem_cons_self _ _))
    · exact ih (jobStore store i) hjr hnd.2 (fun m hm => hsc m (List.mem_cons_of_mem _ hm))

theorem map_jobLog_filter_failed_nil {L : List JobSpec} (h : ∀ j ∈ L, jobSucceeds j) :
    (L.map jobLog).filter (fun l => l.status == "Failed") = [] := by
  refine List.filter_eq_nil_iff.mpr (fun a ha => ?_)
  obtain ⟨j, hj, rfl⟩ := List.mem_map.mp ha
  have hst := (jobLog_success (h j hj)).1
  simp [hst]

theorem map_jobLog_filter_success_self {L : List JobSpec} (h : ∀ j ∈ L, jobSucceeds j) :
    (L.map jobLog).filter (fun l => l.status == "Success") = L.map jobLog := by
  refine List.filter_eq_self.mpr (fun a ha => ?_)
  obtain ⟨j, hj, rfl⟩ := List.mem_map.mp ha
  have hst := (jobLog_success (h j hj)).1
  simp [hst]

/-- C1: when every job but `k` succeeds and `k`'s scrape fails (raises or
returns no data), the orchestrator still runs to the end: the final batch
upsert payload is every job's own log entry (each a function of that job
alone), exactly `k`'s entry is `Failed`, the other `N-1` entries are
`Success`, and every successful institution's records are published in its
scope of the store. -/
theorem orchestrator_isolates_single_failure
    (A B : List JobSpec) (k : JobSpec) (store : Store)
    (hA : ∀ j ∈ A, jobSucceeds j) (hB : ∀ j ∈ B, jobSucceeds j)
    (hk : scrapeFails k)
    (hnd : ((A ++ k :: B).map JobSpec.name).Nodup)
    (hsc : ∀ j ∈ A ++ k :: B, wellScoped j) :
    (run_scraper_orchestrator store (A ++ k :: B)).2 = (A ++ k :: B).map jobLog ∧
      ((run_scraper_orchestrator store (A ++ k :: B)).2.filter
        (fun l => l.status == "Failed")) = [jobLog k] ∧
      ((run_scraper_orchestrator store (A ++ k :: B)).2.filter
        (fun l => l.status == "Success")).length = A.length + B.length ∧
      (∀ j, j ∈ A ∨ j ∈ B →
        (run_scraper_orchestrator store (A ++ k :: B)).1.filter
          (fun r => r.bankName == j.name) = scrapedRows j) ∧
      (∀ j ∈ A ++ k :: B, jobLog j ∈ (run_scraper_orchestrator store (A ++ k :: B)).2) := by
  have hlogs := orchestrator_logs_map (A ++ k :: B) store
  have hstore := orchestrator_store_foldl (A ++ k :: B) store
  have hkst := jobLog_failed hk
  refine ⟨hlogs, ?_, ?_, ?_, ?_⟩
  · rw [hlogs, List.map_append, List.map_cons, List.filter_append, List.filter_cons]
    rw [map_jobLog_filter_failed_nil hA, map_jobLog_filter_failed_nil hB]
    simp [hkst]
  · rw [hlogs, List.map_append, List.map_cons, List.filter_append, List.filter_cons]
    rw [map_jobLog_filter_success_self hA, map_jobLog_filter_success_self hB]
    simp [hkst]
  · intro j hj
    rw [hstore]
    refine foldl_own_scope _ store j ?_ ?_ hnd hsc
    · rcases hj with h | h
      · exact List.mem_append_left _ h
      · exact List.mem_append_right _ (List.mem_cons_of_mem _ h)
    · rcases hj with h | h
      · exact hA j h
      · exact hB j h
  · intro j hj
    rw [hlogs]
    exact List.mem_map_of_mem jobLog hj

/-- C1 witness: `orchestrator_isolates_single_failure` on three concrete
jobs where the middle one raises. -/
theorem orchestrator_isolates_single_failure_witness :
    ((run_scraper_orchestrator []
        [JobSpec.mk "A Bank" "Bank"
            (.frame [Row.mk "A Bank" "Standard" "Bank" 12 "Monthly" ⟨14, 0⟩ none]) .ok,
          JobSpec.mk "K Bank" "Bank" (.raises "boom") .ok,
          JobSpec.mk "B Finance" "Finance Company"
            (.frame [Row.mk "B Finance" "Standard" "Finance Company" 6 "At Maturity" ⟨15, 0⟩ none])
            .ok]).2.filter
      (fun l => l.status == "Failed")) =
      [jobLog (JobSpec.mk "K Bank" "Bank" (.raises "boom") .ok)] :=
  (orchestrator_isolates_single_failure
    [JobSpec.mk "A Bank" "Bank"
      (.frame [Row.mk "A Bank" "Standard" "Bank" 12 "Monthly" ⟨14, 0⟩ none]) .ok]
    [JobSpec.mk "B Finance" "Finance Company"
      (.frame [Row.mk "B Finance" "Standard" "Finance Company" 6 "At Maturity" ⟨15, 0⟩ none])
      .ok]
    (JobSpec.mk "K Bank" "Bank" (.raises "boom") .ok)
    []
    (by
      intro j hj
      rw [List.mem_singleton] at hj
      subst hj
      exact ⟨⟨[Row.mk "A Bank" "Standard" "Bank" 12 "Monthly" ⟨14, 0⟩ none], rfl,
        by decide⟩, rfl⟩)
    (by
      intro j hj
      rw [List.mem_singleton] at hj
      subst hj
      exact ⟨⟨[Row.mk "B Finance" "Standard" "Finance Company" 6 "At Maturity" ⟨15, 0⟩ none],
        rfl, by decide⟩, rfl⟩)
    (Or.inl ⟨"boom", rfl⟩)
    (by decide)
    (by decide)).2.1
